import Mathlib

/-!
Verification of pygissim (src/src/pygissim/engine.py and pygissim.py).

This file shallowly embeds the parts of the simulator that the checked
claims are about: the zone/connection network model and `find_route`,
the compute model (`HardwareDef`, `ComputeNode`, `ServiceProvider`),
the solution planner `create_solution`, the multi-channel queue's
work-done accounting and performance metric, and the scheduler's
dispatch tie-break plus `gather_queue_metrics`.

Modelling decisions, applied uniformly:
- Python ints are `Int` (or `Nat` for values that are provably
  non-negative indices/counts); Python floats are exact rationals
  (`Rat`); `int(x)` truncation toward zero is `pyInt`.
- Python object identity (the default `==` of `Zone`, `ComputeNode`) is
  modelled by giving each object a distinct `id` field and using
  structural equality, which then coincides with identity.
- Code that may raise returns `Except String`; a raised exception is
  `Except.error` carrying the exception name.  Code returning
  `Optional[T]` returns `Option T`.
- Mutation is modelled by returning the updated object next to the
  ordinary result.
-/

/-- Truncation toward zero of a rational, as Python's `int(float)`. -/
def pyInt (q : Rat) : Int :=
  if 0 ≤ q.num then q.num / (q.den : Int) else -((-q.num) / (q.den : Int))

/-- ValidationMessage (engine.py). -/
structure ValidationMessage where
  message : String
  source : String
deriving DecidableEq, Repr

/-- Zone (engine.py).  Python `Zone` has no `__eq__`, so two zones are
equal iff they are the same object; the `id` field (a uuid in the
source) realises that identity. -/
structure Zone where
  id : Nat
  name : String
deriving DecidableEq, Repr

/-- Connection (engine.py).  `__eq__` compares source, destination,
bandwidth and latency; the derived name is not part of equality and is
recomputed on demand. -/
structure Connection where
  source : Zone
  destination : Zone
  bandwidth : Int
  latency_ms : Int
deriving DecidableEq, Repr

/-- Connection.name, the derived display name. -/
def Connection.name (c : Connection) : String :=
  c.source.name ++ " to " ++ c.destination.name

/-- Connection.is_local (engine.py): source and destination coincide. -/
def Connection.is_local (c : Connection) : Bool := c.source == c.destination

/-- Connection.inverted (engine.py). -/
def Connection.inverted (c : Connection) : Connection :=
  { source := c.destination, destination := c.source,
    bandwidth := c.bandwidth, latency_ms := c.latency_ms }

/-- Zone.local_connection (engine.py lines 266-276).  The source filters
the network for self-loops of this zone and then tests
`len(conns) >= 0` - which always holds - before returning `conns[0]`.
When the filter result is empty that subscript raises IndexError; the
dead `return None` branch is kept for fidelity. -/
def Zone.local_connection (z : Zone) (in_network : List Connection) :
    Except String (Option Connection) :=
  let conns := in_network.filter (fun conn => z == conn.source && z == conn.destination)
  if conns.length ≥ 0 then
    match conns with
    | [] => .error ("IndexError: list index out of range")
    | c :: _ => .ok (some c)
  else
    .ok none

/-- Zone.is_a_source (engine.py). -/
def Zone.is_a_source (z : Zone) (in_network : List Connection) : Bool :=
  (in_network.filter (fun conn => z == conn.source)).length > 0

/-- Zone.is_a_destination (engine.py). -/
def Zone.is_a_destination (z : Zone) (in_network : List Connection) : Bool :=
  (in_network.filter (fun conn => z == conn.destination)).length > 0

/-- Zone.exit_connections (engine.py): non-local connections leaving
this zone. -/
def Zone.exit_connections (z : Zone) (in_network : List Connection) : List Connection :=
  in_network.filter (fun conn => conn.is_local == false && z == conn.source)

/-- Route (engine.py): an immutable list of connections. -/
structure Route where
  connections : List Connection
deriving DecidableEq, Repr

/-- The `results.sort(key=len); return results[0]` step of
`_find_route_dfs`: Python's sort is stable, so the returned element is
the first one of minimal length ([] when there are no results). -/
def stable_min_by_length : List (List Connection) → List Connection
  | [] => []
  | x :: xs => xs.foldl (fun best p => if p.length < best.length then p else best) x

/-- The recursion of `_find_route_dfs` (engine.py lines 1551-1574).  The
`fuel` argument bounds the recursion depth; `find_route` passes
`in_network.length + 1`, which suffices because every recursive call
visits a connection destination that was unvisited before (the fuel-0
branch is unreachable under that bound, see `find_route_dfs_spec`). -/
def find_route_dfs : Nat → Zone → Zone → List Connection → List Zone → List Connection →
    List Connection
  | 0, _, _, _, _, _ => []
  | fuel + 1, start, finish, in_network, visited, path =>
    if start = finish then path
    else
      let exits := start.exit_connections in_network
      let exits_to_unvisited := exits.filter (fun conn => !(visited.contains conn.destination))
      let results := exits_to_unvisited.map (fun ex =>
        find_route_dfs fuel ex.destination finish in_network
          (visited ++ [ex.destination]) (path ++ [ex]))
      let results := results.filter (fun p =>
        p.length > 0 && (p.getLast?.map (fun c => c.destination) == some finish))
      stable_min_by_length results

/-- find_route (engine.py lines 1514-1539).  Returns `.ok none` where the
source returns `None`, `.ok (some r)` for a found route, and `.error`
where the source raises (the IndexError escaping from
`Zone.local_connection`).  The source consults `local_connection` twice;
both calls are kept. -/
def find_route (start finish : Zone) (in_network : List Connection) :
    Except String (Option Route) :=
  if !(start.is_a_source in_network) || !(finish.is_a_destination in_network) then
    .ok none
  else
    match start.local_connection in_network with
    | .error e => .error e
    | .ok lc =>
      if lc = none then
        .ok none
      else
        match start.local_connection in_network with
        | .error e => .error e
        | .ok loc =>
          let working_path := match loc with
            | some l => [l]
            | none => ([] : List Connection)
          let path := find_route_dfs (in_network.length + 1) start finish in_network
            [start] working_path
          if path.length = 0 then .ok none
          else .ok (some { connections := path })

/-- ThreadingModel (engine.py). -/
inductive ThreadingModel
  | PHYSICAL
  | HYPERTHREADED
deriving DecidableEq, Repr

/-- ThreadingModel.factor (engine.py): 1.0 for PHYSICAL, 0.5 otherwise. -/
def ThreadingModel.factor : ThreadingModel → Rat
  | .PHYSICAL => 1
  | .HYPERTHREADED => 1 / 2

/-- BalancingModel (engine.py). -/
inductive BalancingModel
  | SINGLE
  | ROUND_ROBIN
  | FAILOVER
  | CONTAINERIZED
  | OTHER
deriving DecidableEq, Repr

/-- ComputeNodeType (engine.py). -/
inductive ComputeNodeType
  | CLIENT
  | P_SERVER
  | V_SERVER
deriving DecidableEq, Repr

/-- ServiceDef (engine.py). -/
structure ServiceDef where
  name : String
  description : String
  service_type : String
  balancing_model : BalancingModel
deriving DecidableEq, Repr

/-- HardwareDef (engine.py).  The SPECintRate2017 score is a Python
float, modelled as an exact rational. -/
structure HardwareDef where
  processor : String
  cores : Nat
  specint_rate2017 : Rat
deriving DecidableEq, Repr

/-- The calibration constant `HardwareDef.baseline_per_core` (engine.py
line 463). -/
def HardwareDef.baseline_per_core : Rat := 10

/-- HardwareDef.specint_rate2017_per_core (engine.py). -/
def HardwareDef.specint_rate2017_per_core (hw : HardwareDef) : Rat :=
  hw.specint_rate2017 / (hw.cores : Rat)

/-- ComputeNode (engine.py).  Python `ComputeNode` has no `__eq__`, so
equality is object identity, realised by the `id` field (a uuid in the
source).  `v_cores` is the `_v_cores` attribute (0 unless the node is a
virtual server); the `_v_hosts` list is omitted because no claim
touches it. -/
structure ComputeNode where
  id : Nat
  name : String
  description : String
  hw_def : HardwareDef
  memory_GB : Int
  zone : Zone
  type : ComputeNodeType
  threading : ThreadingModel
  v_cores : Nat
deriving DecidableEq, Repr

/-- ComputeNode.__init__ (engine.py lines 476-489): the threading model
defaults to PHYSICAL for clients and HYPERTHREADED for every other node
type, and `_v_cores` starts at 0. -/
def ComputeNode.init (id : Nat) (name desc : String) (hw_def : HardwareDef)
    (memory_GB : Int) (zone : Zone) (type : ComputeNodeType) : ComputeNode :=
  { id := id, name := name, description := desc, hw_def := hw_def,
    memory_GB := memory_GB, zone := zone, type := type,
    threading := if type = ComputeNodeType.CLIENT then ThreadingModel.PHYSICAL
      else ThreadingModel.HYPERTHREADED,
    v_cores := 0 }

/-- ComputeNode.specint_rate2017_per_core (engine.py line 509-511):
per-core hardware score times the threading factor. -/
def ComputeNode.specint_rate2017_per_core (n : ComputeNode) : Rat :=
  n.hw_def.specint_rate2017_per_core * n.threading.factor

/-- ComputeNode.adjusted_service_time (engine.py lines 513-523). -/
def ComputeNode.adjusted_service_time (n : ComputeNode) (st : Int) : Int :=
  let relative : Rat := HardwareDef.baseline_per_core / n.specint_rate2017_per_core
  pyInt ((st : Rat) * relative)

/-- ComputeNode.calculate_latency (engine.py lines 534-539): compute
nodes have no latency, the source returns `None` for every request. -/
def ComputeNode.calculate_latency (_n : ComputeNode) : Option Int := none

/-- ServiceProvider (engine.py).  `primary` is the private `_primary`
rotating index. -/
structure ServiceProvider where
  name : String
  description : String
  service : ServiceDef
  nodes : List ComputeNode
  primary : Nat
  tags : List String
deriving DecidableEq, Repr

/-- ServiceProvider.rotate_primary (engine.py lines 671-677), the state
update part (its return value, the new index, is the `primary` field of
the result). -/
def ServiceProvider.rotate_primary (sp : ServiceProvider) : ServiceProvider :=
  { sp with primary := (sp.primary + 1) % sp.nodes.length }

/-- ServiceProvider.handler_node (engine.py lines 679-690).  Returns the
node at the current primary index (None when the node list is empty; an
IndexError when the stored index is out of range) and, for ROUND_ROBIN
providers only, the provider with the primary rotated. -/
def ServiceProvider.handler_node (sp : ServiceProvider) :
    Except String (Option ComputeNode × ServiceProvider) :=
  if sp.nodes.length = 0 then .ok (none, sp)
  else
    match sp.nodes.get? sp.primary with
    | none => .error ("IndexError: list index out of range")
    | some result =>
      if sp.service.balancing_model = BalancingModel.ROUND_ROBIN then
        .ok (some result, sp.rotate_primary)
      else
        .ok (some result, sp)

/-- ServiceProvider.validate (engine.py lines 720-731): collects an
empty-node-list message, then calls `handler_node` (with its rotation
side effect) and collects a message when it returned None. -/
def ServiceProvider.validate (sp : ServiceProvider) :
    Except String (List ValidationMessage × ServiceProvider) := do
  let messages : List ValidationMessage :=
    if sp.nodes.length = 0 then
      [{ message := "Service Provider must have at least one node", source := sp.name }]
    else []
  let (hn, sp1) ← sp.handler_node
  let messages :=
    if hn = none then
      messages ++ [{ message := "Service Provider handler node is None", source := sp.name }]
    else messages
  pure (messages, sp1)

/-- Iterated `handler_node`: the list of results of `m` consecutive
calls on the same provider object, together with the provider's final
state. -/
def ServiceProvider.call_n : Nat → ServiceProvider →
    Except String (List (Option ComputeNode) × ServiceProvider)
  | 0, sp => .ok ([], sp)
  | m + 1, sp => do
    let (r, sp1) ← sp.handler_node
    let (rs, sp2) ← ServiceProvider.call_n m sp1
    pure (r :: rs, sp2)

/-- DataSourceType (engine.py), kept for the workflow step record. -/
inductive DataSourceType
  | RELATIONAL
  | OBJECT
  | FILE
  | DBMS
  | BIG
  | OTHER
  | NONE
deriving DecidableEq, Repr

/-- WorkflowDefStep (engine.py). -/
structure WorkflowDefStep where
  name : String
  description : String
  service_type : String
  service_time : Int
  chatter : Int
  request_size_kb : Int
  response_size_kb : Int
  data_source_type : DataSourceType
  cache_pct : Int
deriving DecidableEq, Repr

/-- The polymorphic ServiceTimeCalculator (engine.py): either a compute
node or a connection drives a queue. -/
inductive ServiceTimeCalculator
  | node (n : ComputeNode)
  | conn (c : Connection)
deriving DecidableEq, Repr

/-- ServiceTimeCalculator name attribute, used as the queue name. -/
def ServiceTimeCalculator.calc_name : ServiceTimeCalculator → String
  | .node n => n.name
  | .conn c => c.name

/-- ClientRequestSolutionStep (engine.py). -/
structure ClientRequestSolutionStep where
  st_calculator : ServiceTimeCalculator
  is_response : Bool
  data_size : Int
  chatter : Int
  service_time : Int
deriving DecidableEq, Repr

/-- ClientRequestSolution (engine.py): the remaining ordered steps. -/
structure ClientRequestSolution where
  steps : List ClientRequestSolutionStep
deriving DecidableEq, Repr

/-- WorkflowChain (engine.py).  The `service_providers` dict (keyed by
service type) is an association list; each provider object is assumed to
be bound under a single key, so replacing the value at its key models
in-place mutation of the provider. -/
structure WorkflowChain where
  name : String
  description : String
  steps : List WorkflowDefStep
  service_providers : List (String × ServiceProvider)
deriving DecidableEq, Repr

/-- WorkflowChain.missing_service_providers (engine.py): required
service types that have no configured provider (set difference; the
enumeration order of the Python set is irrelevant to the claims, which
only consult emptiness). -/
def WorkflowChain.missing_service_providers (chain : WorkflowChain) : List String :=
  ((chain.steps.map (fun s => s.service_type)).dedup).filter
    (fun t => !((chain.service_providers.map (fun p => p.1)).contains t))

/-- WorkflowChain.is_valid (engine.py): the chain validates iff no
service provider is missing. -/
def WorkflowChain.is_valid (chain : WorkflowChain) : Bool :=
  chain.missing_service_providers.length = 0

/-- Lookup of `chain.service_providers[step.service_type]`
(WorkflowChain.service_provider_for_step, engine.py lines 1123-1129),
generalised over the threaded provider state. -/
def sp_lookup (sps : List (String × ServiceProvider)) (t : String) : Option ServiceProvider :=
  sps.lookup t

/-- Write-back of a mutated provider under its key. -/
def sp_store (sps : List (String × ServiceProvider)) (t : String) (sp : ServiceProvider) :
    List (String × ServiceProvider) :=
  sps.map (fun p => if p.1 == t then (p.1, sp) else p)

/-- The state threaded through `create_solution`: the provider map (the
chain's dict of mutable provider objects), the node the request
currently sits on, and the solution steps accumulated so far. -/
structure SolveState where
  sps : List (String × ServiceProvider)
  source_node : ComputeNode
  steps : List ClientRequestSolutionStep
deriving DecidableEq, Repr

/-- One iteration of the planner's loops (engine.py lines 1445-1475 for
the forward pass, 1478-1508 for the retrace; the two bodies are textually
identical except that the retrace uses the response size and marks steps
as responses, selected here by `is_resp`).  Resolves step `i`'s provider
to a node, inserts one network hop per route connection when - and only
when - the resolved node differs from the current node, then appends the
compute step and moves the request onto the resolved node. -/
def solution_visit (chain : WorkflowChain) (in_network : List Connection) (is_resp : Bool)
    (st : SolveState) (i : Nat) : Except String SolveState := do
  match chain.steps.get? i with
  | none => .error ("IndexError: list index out of range")
  | some step =>
    let size := if is_resp then step.response_size_kb else step.request_size_kb
    match sp_lookup st.sps step.service_type with
    | none => .error ("ValueError: ServiceProvider was None")
    | some dest_sp =>
      let (dn, dest_sp1) ← dest_sp.handler_node
      let sps1 := sp_store st.sps step.service_type dest_sp1
      match dn with
      | none => .error ("ValueError: handler node was None")
      | some dest_node =>
        let hops ←
          if st.source_node ≠ dest_node then
            match find_route st.source_node.zone dest_node.zone in_network with
            | .error e => .error e
            | .ok none => .error ("ValueError: could not find route")
            | .ok (some route) =>
              pure (route.connections.map (fun conn =>
                { st_calculator := ServiceTimeCalculator.conn conn,
                  is_response := is_resp, data_size := size,
                  chatter := step.chatter, service_time := 0
                  : ClientRequestSolutionStep }))
          else
            pure ([] : List ClientRequestSolutionStep)
        let compute_step : ClientRequestSolutionStep :=
          { st_calculator := ServiceTimeCalculator.node dest_node,
            is_response := is_resp, data_size := size,
            chatter := 0, service_time := step.service_time }
        pure { sps := sps1, source_node := dest_node,
               steps := st.steps ++ hops ++ [compute_step] }

/-- create_solution (engine.py lines 1411-1510).  Validates the chain,
plants the first compute step on step 0's handler node, walks the chain
forward over indices 1..n-1, then retraces over indices n-2..0 with
response sizes. -/
def create_solution (chain : WorkflowChain) (in_network : List Connection) :
    Except String ClientRequestSolution := do
  if !chain.is_valid then
    .error ("ValueError: Workflow Chain passed to create_solution must be valid")
  else
    match chain.steps.head? with
    | none => .error ("IndexError: list index out of range")
    | some step0 =>
      match sp_lookup chain.service_providers step0.service_type with
      | none => .error ("ValueError: ServiceProvider was None")
      | some source_sp => do
        let (sn, source_sp1) ← source_sp.handler_node
        let sps1 := sp_store chain.service_providers step0.service_type source_sp1
        match sn with
        | none => .error ("ValueError: handler node was None")
        | some source_node => do
          let first_step : ClientRequestSolutionStep :=
            { st_calculator := ServiceTimeCalculator.node source_node,
              is_response := false, data_size := step0.request_size_kb,
              chatter := 0, service_time := step0.service_time }
          let st0 : SolveState :=
            { sps := sps1, source_node := source_node, steps := [first_step] }
          let st1 ← (List.range' 1 (chain.steps.length - 1)).foldlM
            (solution_visit chain in_network false) st0
          let st2 ← ((List.range (chain.steps.length - 1)).reverse).foldlM
            (solution_visit chain in_network true) st1
          pure { steps := st2.steps }

/-- WaitMode (engine.py). -/
inductive WaitMode
  | TRANSMITTING
  | PROCESSING
  | QUEUEING
deriving DecidableEq, Repr

/-- WaitingRequest (engine.py lines 751-795).  The wrapped
`ClientRequest` is represented by its identity; its accumulating
metrics are not consulted by the queue-accounting claims. -/
structure WaitingRequest where
  request : Nat
  wait_start : Int
  service_time : Option Int
  latency : Option Int
  wait_mode : WaitMode
  queue_time : Int
deriving DecidableEq, Repr

/-- WaitingRequest.wait_end (engine.py lines 788-795): None while
queueing or without a service time, otherwise start + service + latency
(None treated as 0) + queue time. -/
def WaitingRequest.wait_end (wr : WaitingRequest) : Option Int :=
  if wr.wait_mode = WaitMode.QUEUEING ∨ wr.service_time = none then none
  else
    let lat : Int := match wr.latency with
      | none => 0
      | some l => l
    some (wr.wait_start + (match wr.service_time with | none => 0 | some s => s)
      + lat + wr.queue_time)

/-- QueueMetric (engine.py).  The utilization float is an exact
rational. -/
structure QueueMetric where
  source : String
  stc_type : String
  clock : Int
  channel_count : Nat
  request_count : Nat
  utilization : Rat
deriving DecidableEq, Repr

/-- MultiQueue (engine.py lines 799-821). -/
structure MultiQueue where
  service_time_calculator : ServiceTimeCalculator
  wait_mode : WaitMode
  channels : List (Option WaitingRequest)
  main_queue : List WaitingRequest
  last_metric_clock : Int
  work_done : Int
deriving DecidableEq, Repr

/-- MultiQueue.name (engine.py line 822-824). -/
def MultiQueue.queue_name (q : MultiQueue) : String :=
  q.service_time_calculator.calc_name

/-- MultiQueue.all_waiting_requests (engine.py lines 941-946): occupied
channels first, then the main queue. -/
def MultiQueue.all_waiting_requests (q : MultiQueue) : List WaitingRequest :=
  q.channels.filterMap id ++ q.main_queue

/-- MultiQueue._log_work_done (engine.py lines 970-980).  Credits the
request's service time toward `work_done`, minus the part before the
current window and minus the part not yet done - with no clamping. -/
def MultiQueue.log_work_done (q : MultiQueue) (request : WaitingRequest) (clock : Int) :
    MultiQueue :=
  match request.service_time, request.wait_end with
  | some st, some we =>
    let total_work : Int := st
    let total_work :=
      if request.wait_start < q.last_metric_clock then
        total_work - (q.last_metric_clock - request.wait_start)
      else total_work
    let total_work :=
      if clock < we then total_work - (we - clock) else total_work
    { q with work_done := q.work_done + total_work }
  | _, _ => q

/-- MultiQueue._calc_utilization (engine.py lines 982-986):
`work_done / (time_window * channel_count)` as float division, which
raises ZeroDivisionError when the denominator is zero (in particular
whenever `clock = last_metric_clock`). -/
def MultiQueue.calc_utilization (q : MultiQueue) (clock : Int) : Except String Rat :=
  let time_window : Int := clock - q.last_metric_clock
  let max_work : Int := time_window * (q.channels.length : Int)
  if max_work = 0 then .error ("ZeroDivisionError: float division by zero")
  else .ok ((q.work_done : Rat) / (max_work : Rat))

/-- MultiQueue.get_performance_metric (engine.py lines 948-968): log the
work of every waiting request up to `clock`, emit the metric, then reset
`work_done` and move `last_metric_clock` forward. -/
def MultiQueue.get_performance_metric (q : MultiQueue) (clock : Int) :
    Except String (QueueMetric × MultiQueue) :=
  let stc : String := match q.service_time_calculator with
    | .node n =>
      match n.type with
      | .CLIENT => "CLIENT"
      | .P_SERVER => "P_SERVER"
      | .V_SERVER => "V_SERVER"
    | .conn _ => "CONNECTION"
  let waiting := q.all_waiting_requests
  let q1 := waiting.foldl (fun acc wr => acc.log_work_done wr clock) q
  match q1.calc_utilization clock with
  | .error e => .error e
  | .ok u =>
    let qm : QueueMetric :=
      { source := q1.queue_name, stc_type := stc, clock := clock,
        channel_count := q1.channels.length, request_count := waiting.length,
        utilization := u }
    .ok (qm, { q1 with work_done := 0, last_metric_clock := clock })

/-- Attribute lookup `MultiQueue.type()` as performed by
`Simulator.gather_queue_metrics` and `_sort_queues` (pygissim.py lines
636 and 646-653): `MultiQueue` in engine.py defines no method or
attribute named `type`, so every such lookup raises AttributeError. -/
def MultiQueue.type (_q : MultiQueue) : Except String String :=
  .error ("AttributeError: MultiQueue object has no attribute type")

/-- The comparator `_sort_queues` (pygissim.py lines 646-653): orders
physical-server queues after all others.  Both of its `type()` calls
raise AttributeError (see `MultiQueue.type`). -/
def _sort_queues (q1 q2 : MultiQueue) : Except String Int := do
  let type1 ← q1.type
  let type2 ← q2.type
  if type1 == "P_SERVER" && !(type2 == "P_SERVER") then pure 1
  else if type2 == "P_SERVER" && !(type1 == "P_SERVER") then pure (-1)
  else pure 0

/-- Stable insertion of one element with a monadic comparator:
`x` goes after every earlier element that does not compare greater. -/
def insert_cmp (cmp : MultiQueue → MultiQueue → Except String Int) (x : MultiQueue) :
    List MultiQueue → Except String (List MultiQueue)
  | [] => pure [x]
  | y :: ys => do
    let c ← cmp y x
    if c ≤ 0 then do
      let rest ← insert_cmp cmp x ys
      pure (y :: rest)
    else
      pure (x :: y :: ys)

/-- Stable comparison sort with a monadic comparator, modelling Python's
`sorted(..., key=cmp_to_key(...))`: for lists of at most one element no
comparison is made; for longer lists at least one comparison runs, so a
comparator that always raises makes the sort raise. -/
def sorted_cmp (cmp : MultiQueue → MultiQueue → Except String Int) :
    List MultiQueue → Except String (List MultiQueue)
  | [] => pure []
  | x :: xs => do
    let rest ← sorted_cmp cmp xs
    insert_cmp cmp x rest

/-- The Simulator state touched by the embedded scheduler operations
(pygissim.py lines 434-446); the design reference and bookkeeping lists
not consulted by the claims are omitted. -/
structure Simulator where
  clock : Int
  queues : List MultiQueue
  queue_metrics : List QueueMetric
deriving Repr

/-- Simulator.gather_queue_metrics (pygissim.py lines 625-643): sorts
the queues with `_sort_queues` (physical servers last), then samples
each queue, appends the metric, and - for virtual-server queues - rolls
the reported work into the hosting physical queue.  Every path through
the per-queue body reaches `q.type()`; that attribute does not exist, so
the body raises, and with two or more queues the sort itself raises
first.  The roll-up branch additionally references `QueueMetric.work`
and `ComputeNode.is_physical_host_for`, which engine.py does not define
either; as it is unreachable it is modelled by the AttributeError its
first missing attribute would raise. -/
def Simulator.gather_queue_metrics (sim : Simulator) : Except String Simulator := do
  let sorted_queues ← sorted_cmp _sort_queues sim.queues
  sorted_queues.foldlM (fun (s : Simulator) q => do
      let (qm, q1) ← q.get_performance_metric s.clock
      let s := { s with
        queues := s.queues.map (fun x => if x == q then q1 else x),
        queue_metrics := s.queue_metrics ++ [qm] }
      let t ← q1.type
      if t == "V_SERVER" then
        .error ("AttributeError: QueueMetric object has no attribute work")
      else
        pure s)
    sim

/-- The outcome of one `Simulator._do_the_next_task` dispatch. -/
inductive NextTask
  | workflowTask (clock : Int)
  | queueTask (clock : Int)
  | idle
deriving DecidableEq, Repr

/-- The branch selection of `Simulator._do_the_next_task` (pygissim.py
lines 554-579) on the earliest pending workflow firing time and the
earliest pending queue completion time: the workflow branch runs when
`next_work is not None and (next_queue is None or next_work < next_queue)`,
else the queue branch runs when
`next_queue is not None and (next_work is None or next_queue <= next_work)`. -/
def do_the_next_task_choice : Option Int → Option Int → NextTask
  | some w, none => .workflowTask w
  | some w, some q => if w < q then .workflowTask w else .queueTask q
  | none, some q => .queueTask q
  | none, none => .idle

/-- Report of a planned solution: forward compute steps, return compute
steps, network hop steps, the sum of the service times the handling
nodes compute for the compute steps (via `adjusted_service_time`, as the
queue would at enqueue time), and the latency sum (nodes contribute the
0 of their `None` latency, connections contribute latency times
chatter). -/
def solution_forward_compute_count (sol : ClientRequestSolution) : Nat :=
  sol.steps.countP (fun s =>
    !s.is_response && match s.st_calculator with
      | .node _ => true
      | .conn _ => false)

/-- Count of return (response) compute steps, see
`solution_forward_compute_count`. -/
def solution_return_compute_count (sol : ClientRequestSolution) : Nat :=
  sol.steps.countP (fun s =>
    s.is_response && match s.st_calculator with
      | .node _ => true
      | .conn _ => false)

/-- Count of network hop (connection) steps of a planned solution. -/
def solution_hop_count (sol : ClientRequestSolution) : Nat :=
  sol.steps.countP (fun s =>
    match s.st_calculator with
    | .node _ => false
    | .conn _ => true)

/-- Sum over the compute steps of the service time the handling node
computes (`ComputeNode.adjusted_service_time` applied to the step's
baseline service time, as `calculate_service_time` does). -/
def solution_node_service_sum (sol : ClientRequestSolution) : Int :=
  sol.steps.foldl (fun acc s =>
    match s.st_calculator with
    | .node n => acc + n.adjusted_service_time s.service_time
    | .conn _ => acc) 0

/-- Sum of the latency every step's calculator computes: nodes return
None (counted as 0), connections return latency times chatter. -/
def solution_latency_sum (sol : ClientRequestSolution) : Int :=
  sol.steps.foldl (fun acc s =>
    match s.st_calculator with
    | .node n =>
      acc + (match n.calculate_latency with | none => 0 | some l => l)
    | .conn c => acc + c.latency_ms * s.chatter) 0

/-- A simple path through the network, as enumerated by
`_find_route_dfs`: from zone `z` with zones `visited` already entered,
a sequence of non-local network connections chains source-to-destination
into `finish`, entering only fresh zones (each freshly entered zone is
added to `visited`).  The empty sequence is a path exactly at `finish`. -/
inductive ReachesVia (net : List Connection) (finish : Zone) :
    Zone → List Zone → List Connection → Prop
  | done (visited : List Zone) : ReachesVia net finish finish visited []
  | step {z : Zone} {visited : List Zone} {rest : List Connection} (c : Connection) :
      c ∈ net → c.is_local = false → c.source = z → c.destination ∉ visited →
      ReachesVia net finish c.destination (visited ++ [c.destination]) rest →
      ReachesVia net finish z visited (c :: rest)

/-- Everything claim C4 asserts of a route returned by `find_route`:
it begins with the start zone's self-loop, consecutive links chain, the
last link ends at the target zone, the inter-zone tail is a simple path
over non-local network links, it is shortest among all such simple
paths, and a route from a zone to itself is the self-loop alone. -/
def RouteSpec (start finish : Zone) (net : List Connection) (r : Route) : Prop :=
  ∃ l suffix,
    start.local_connection net = .ok (some l) ∧
    l ∈ net ∧ l.source = start ∧ l.destination = start ∧
    r.connections = l :: suffix ∧
    List.Chain' (fun a b => a.destination = b.source) r.connections ∧
    (∃ c, r.connections.getLast? = some c ∧ c.destination = finish) ∧
    (∀ c ∈ suffix, c ∈ net ∧ c.is_local = false) ∧
    (suffix.map (fun c => c.destination)).Nodup ∧
    start ∉ suffix.map (fun c => c.destination) ∧
    ReachesVia net finish start [start] suffix ∧
    (∀ q, ReachesVia net finish start [start] q → r.connections.length ≤ 1 + q.length) ∧
    (start = finish → suffix = [])

/-- Scenario A zone L. -/
def zoneL : Zone := { id := 0, name := "L" }

/-- Scenario A self-loop of L: 1000 Mbps, 0 ms. -/
def selfLoopL : Connection :=
  { source := zoneL, destination := zoneL, bandwidth := 1000, latency_ms := 0 }

/-- Scenario A network. -/
def netA : List Connection := [selfLoopL]

/-- Scenario A hardware: 10 cores, SPECintRate2017 = 100. -/
def hwA : HardwareDef := { processor := "HW", cores := 10, specint_rate2017 := 100 }

/-- Scenario A physical node P, built by the `ComputeNode` constructor
(so its threading model is the HYPERTHREADED default for non-client
nodes). -/
def nodeP : ComputeNode :=
  ComputeNode.init 1 "P" "" hwA 16 zoneL ComputeNodeType.P_SERVER

/-- Scenario A client service definition under SINGLE balancing. -/
def sdef_client : ServiceDef :=
  { name := "Client", description := "", service_type := "client",
    balancing_model := BalancingModel.SINGLE }

/-- Scenario A web service definition under SINGLE balancing. -/
def sdef_web : ServiceDef :=
  { name := "Web", description := "", service_type := "web",
    balancing_model := BalancingModel.SINGLE }

/-- Scenario A provider of the client step, node P. -/
def sp_client : ServiceProvider :=
  { name := "SPclient", description := "", service := sdef_client,
    nodes := [nodeP], primary := 0, tags := [] }

/-- Scenario A provider of the web step, node P. -/
def sp_web : ServiceProvider :=
  { name := "SPweb", description := "", service := sdef_web,
    nodes := [nodeP], primary := 0, tags := [] }

/-- Scenario A client step: baseline service time 20 ms. -/
def step_client : WorkflowDefStep :=
  { name := "client-step", description := "", service_type := "client",
    service_time := 20, chatter := 1, request_size_kb := 100,
    response_size_kb := 2134, data_source_type := DataSourceType.NONE, cache_pct := 0 }

/-- Scenario A web step: baseline service time 18 ms. -/
def step_web : WorkflowDefStep :=
  { name := "web-step", description := "", service_type := "web",
    service_time := 18, chatter := 10, request_size_kb := 100,
    response_size_kb := 2134, data_source_type := DataSourceType.NONE, cache_pct := 0 }

/-- Scenario A chain: client step then web step, both handled by P. -/
def chainA : WorkflowChain :=
  { name := "chainA", description := "", steps := [step_client, step_web],
    service_providers := [("client", sp_client), ("web", sp_web)] }

/-- Two distinct physical nodes in the same zone L, for the claim-C2
scenario.  Node P1 handles the client step. -/
def nodeP1 : ComputeNode :=
  ComputeNode.init 2 "P1" "" hwA 16 zoneL ComputeNodeType.P_SERVER

/-- Second same-zone node for the claim-C2 scenario, handling the web
step. -/
def nodeP2 : ComputeNode :=
  ComputeNode.init 3 "P2" "" hwA 16 zoneL ComputeNodeType.P_SERVER

/-- Claim-C2 provider of the client step, node P1. -/
def sp2_client : ServiceProvider :=
  { name := "SP2client", description := "", service := sdef_client,
    nodes := [nodeP1], primary := 0, tags := [] }

/-- Claim-C2 provider of the web step, node P2. -/
def sp2_web : ServiceProvider :=
  { name := "SP2web", description := "", service := sdef_web,
    nodes := [nodeP2], primary := 0, tags := [] }

/-- Claim-C2 chain: same two steps, consecutive steps resolved to the
two distinct nodes P1 and P2 that share zone L. -/
def chainB : WorkflowChain :=
  { name := "chainB", description := "", steps := [step_client, step_web],
    service_providers := [("client", sp2_client), ("web", sp2_web)] }

/-- The planner state after the first compute step of `chainB`: request
sits on P1. -/
def stB0 : SolveState :=
  { sps := [("client", sp2_client), ("web", sp2_web)],
    source_node := nodeP1,
    steps := [{ st_calculator := ServiceTimeCalculator.node nodeP1,
                is_response := false, data_size := 100, chatter := 0,
                service_time := 20 }] }

/-- Failing input of claim C3: zone X is a source (of X to Y), Y is a
destination, but X has no self-loop. -/
def zoneX : Zone := { id := 20, name := "X" }

/-- Destination zone of the claim-C3 failing input. -/
def zoneY : Zone := { id := 21, name := "Y" }

/-- The single connection of the claim-C3 failing network. -/
def connXY : Connection :=
  { source := zoneX, destination := zoneY, bandwidth := 100, latency_ms := 1 }

/-- Witness network of claim C4 (the spec's Scenario C): zones A, B, C
with self-loops, links A to B, B to C, B to A, C to B. -/
def zoneA4 : Zone := { id := 30, name := "A" }

/-- Zone B of the claim-C4 witness network. -/
def zoneB4 : Zone := { id := 31, name := "B" }

/-- Zone C of the claim-C4 witness network. -/
def zoneC4 : Zone := { id := 32, name := "C" }

/-- The claim-C4 witness network. -/
def netC4 : List Connection :=
  [ { source := zoneA4, destination := zoneA4, bandwidth := 1000, latency_ms := 0 },
    { source := zoneB4, destination := zoneB4, bandwidth := 1000, latency_ms := 0 },
    { source := zoneC4, destination := zoneC4, bandwidth := 1000, latency_ms := 0 },
    { source := zoneA4, destination := zoneB4, bandwidth := 100, latency_ms := 1 },
    { source := zoneB4, destination := zoneC4, bandwidth := 100, latency_ms := 1 },
    { source := zoneB4, destination := zoneA4, bandwidth := 100, latency_ms := 1 },
    { source := zoneC4, destination := zoneB4, bandwidth := 100, latency_ms := 1 } ]

/-- The route `find_route` returns from A to C in `netC4`. -/
def routeAC : Route :=
  { connections :=
    [ { source := zoneA4, destination := zoneA4, bandwidth := 1000, latency_ms := 0 },
      { source := zoneA4, destination := zoneB4, bandwidth := 100, latency_ms := 1 },
      { source := zoneB4, destination := zoneC4, bandwidth := 100, latency_ms := 1 } ] }

/-- A concrete idle two-channel queue (over the L self-loop) used as
witness input for the queue claims. -/
def queueW : MultiQueue :=
  { service_time_calculator := ServiceTimeCalculator.conn selfLoopL,
    wait_mode := WaitMode.TRANSMITTING, channels := [none, none],
    main_queue := [], last_metric_clock := 0, work_done := 0 }

/-- A concrete simulator owning one queue, witness input for claim C6. -/
def simW : Simulator :=
  { clock := 5, queues := [queueW], queue_metrics := [] }

/-- Counterexample queue of claim C5: the previous metric sample was at
clock 5. -/
def queue5 : MultiQueue :=
  { service_time_calculator := ServiceTimeCalculator.conn selfLoopL,
    wait_mode := WaitMode.TRANSMITTING, channels := [none, none],
    main_queue := [], last_metric_clock := 5, work_done := 0 }

/-- Counterexample waiting request of claim C5: started at clock 0 with
service time 10 and latency 100, so at clock 6 the two subtractions of
`_log_work_done` overshoot the service time. -/
def wr5 : WaitingRequest :=
  { request := 1, wait_start := 0, service_time := some 10,
    latency := some 100, wait_mode := WaitMode.PROCESSING, queue_time := 0 }

/-- A ROUND_ROBIN service definition for the rotation claims. -/
def sdef_rr : ServiceDef :=
  { name := "Map", description := "", service_type := "map",
    balancing_model := BalancingModel.ROUND_ROBIN }

/-- Third node for the round-robin witness provider. -/
def nodeP3 : ComputeNode :=
  ComputeNode.init 4 "P3" "" hwA 16 zoneL ComputeNodeType.P_SERVER

/-- A ROUND_ROBIN provider with three distinct nodes, witness input for
claims C8 and C10. -/
def spRR3 : ServiceProvider :=
  { name := "GIS", description := "", service := sdef_rr,
    nodes := [nodeP1, nodeP2, nodeP3], primary := 0, tags := [] }

/-- Decidable equality for `Except`, so closed runs of the embedded
fallible operations can be checked by `decide`. -/
instance {ε α : Type} [DecidableEq ε] [DecidableEq α] : DecidableEq (Except ε α) :=
  fun a b =>
    match a, b with
    | Except.error e1, Except.error e2 =>
      if h : e1 = e2 then Decidable.isTrue (by rw [h])
      else Decidable.isFalse (fun hc => h (Except.error.inj hc))
    | Except.error _, Except.ok _ => Decidable.isFalse (fun hc => Except.noConfusion hc)
    | Except.ok _, Except.error _ => Decidable.isFalse (fun hc => Except.noConfusion hc)
    | Except.ok x, Except.ok y =>
      if h : x = y then Decidable.isTrue (by rw [h])
      else Decidable.isFalse (fun hc => h (Except.ok.inj hc))

/-- The planner state `solution_visit` produces from `stB0` at index 1
of `chainB`: the request moved to P2 through one self-loop hop. -/
def outB1 : SolveState :=
  { sps := [("client", sp2_client), ("web", sp2_web)],
    source_node := nodeP2,
    steps := [{ st_calculator := ServiceTimeCalculator.node nodeP1,
                is_response := false, data_size := 100, chatter := 0,
                service_time := 20 },
              { st_calculator := ServiceTimeCalculator.conn selfLoopL,
                is_response := false, data_size := 100, chatter := 10,
                service_time := 0 },
              { st_calculator := ServiceTimeCalculator.node nodeP2,
                is_response := false, data_size := 100, chatter := 0,
                service_time := 18 }] }

/-- The solution the planner produces on the Scenario A input: three
compute steps on node P (client 20 ms, web 18 ms forward; client 20 ms
on the retrace) and no network hops. -/
def solA : ClientRequestSolution :=
  { steps := [
      { st_calculator := ServiceTimeCalculator.node nodeP, is_response := false,
        data_size := 100, chatter := 0, service_time := 20 },
      { st_calculator := ServiceTimeCalculator.node nodeP, is_response := false,
        data_size := 100, chatter := 0, service_time := 18 },
      { st_calculator := ServiceTimeCalculator.node nodeP, is_response := true,
        data_size := 2134, chatter := 0, service_time := 20 } ] }

/-- Truncation of an integer-valued rational is that integer. -/
theorem pyInt_intCast (n : Int) : pyInt ((n : Rat)) = n := by
  unfold pyInt
  rcases le_or_lt 0 n with h | h
  · rw [if_pos]
    · simp
    · simpa using h
  · rw [if_neg]
    · simp
    · simpa using not_le.mpr h

/-- On the scenario hardware (10 cores, score 100) with the
HYPERTHREADED threading default of non-client nodes, the per-core score
is 5.0 and every baseline service time is doubled. -/
theorem adjust_hwA (n : ComputeNode) (hhw : n.hw_def = hwA)
    (hth : n.threading = ThreadingModel.HYPERTHREADED) (st : Int) :
    n.adjusted_service_time st = 2 * st := by
  unfold ComputeNode.adjusted_service_time
  have h : HardwareDef.baseline_per_core / n.specint_rate2017_per_core = 2 := by
    rw [ComputeNode.specint_rate2017_per_core, hhw, hth]
    norm_num [HardwareDef.specint_rate2017_per_core, hwA,
      HardwareDef.baseline_per_core, ThreadingModel.factor]
  rw [h]
  show pyInt ((st : Rat) * 2) = 2 * st
  have h2 : ((st : Rat)) * 2 = ((2 * st : Int) : Rat) := by push_cast; ring
  rw [h2, pyInt_intCast]

/-- Claim C1, counterexample.  On the Scenario A input the planner
produces 2 forward compute steps but only 1 return compute step (the
retrace walks indices n-2..0, so the last chain step is not repeated),
and the node computes 40+36+40 = 116 ms of service time (its threading
model is the HYPERTHREADED default of the constructor, so the per-core
score is 5.0, not the baseline 10.0, and every baseline time doubles) -
not the 2 return steps, 76 ms claimed. -/
theorem claim_C1_counterexample :
    ((create_solution chainA netA).toOption.map (fun s =>
      (solution_forward_compute_count s, solution_return_compute_count s,
       solution_hop_count s, solution_node_service_sum s, solution_latency_sum s)))
      = some (2, 1, 0, 116, 0) ∧
    ¬ ((create_solution chainA netA).toOption.map (fun s =>
      (solution_forward_compute_count s, solution_return_compute_count s,
       solution_hop_count s, solution_node_service_sum s, solution_latency_sum s)))
      = some (2, 2, 0, 76, 0) := by
  have h1 : create_solution chainA netA = Except.ok solA := by decide
  have hsum : solution_node_service_sum solA = 116 := by
    have ha : nodeP.adjusted_service_time 20 = 40 := adjust_hwA nodeP rfl (by decide) 20
    have hb : nodeP.adjusted_service_time 18 = 36 := adjust_hwA nodeP rfl (by decide) 18
    simp [solution_node_service_sum, solA, ha, hb]
  have hfwd : solution_forward_compute_count solA = 2 := by decide
  have hret : solution_return_compute_count solA = 1 := by decide
  have hhop : solution_hop_count solA = 0 := by decide
  have hlat : solution_latency_sum solA = 0 := by decide
  rw [h1]
  constructor
  · simp [Except.toOption, hsum, hfwd, hret, hhop, hlat]
  · simp [Except.toOption, hsum, hfwd, hret, hhop, hlat]

/-- Claim C1 as amended: in Scenario A the planned solution is exactly
client-compute (20), web-compute (18), then a single return
client-compute (20) on node P, with no link hops; the service times the
node computes for those steps sum to 116 ms (each baseline doubled by
the HYPERTHREADED default) and the latency sum is 0. -/
theorem claim_C1 :
    create_solution chainA netA = Except.ok solA ∧
    ((create_solution chainA netA).toOption.map solution_node_service_sum) = some 116 ∧
    ((create_solution chainA netA).toOption.map solution_latency_sum) = some 0 := by
  have h1 : create_solution chainA netA = Except.ok solA := by decide
  have hsum : solution_node_service_sum solA = 116 := by
    have ha : nodeP.adjusted_service_time 20 = 40 := adjust_hwA nodeP rfl (by decide) 20
    have hb : nodeP.adjusted_service_time 18 = 36 := adjust_hwA nodeP rfl (by decide) 18
    simp [solution_node_service_sum, solA, ha, hb]
  have hlat : solution_latency_sum solA = 0 := by decide
  rw [h1]
  exact ⟨rfl, by simp [Except.toOption, hsum], by simp [Except.toOption, hlat]⟩

/-- Claim C2, counterexample.  The planner inserts hops whenever the
consecutively resolved handler nodes differ, comparing nodes - not
zones: for a chain resolved to the two distinct nodes P1 and P2 that
share zone L, the solution contains 2 self-loop hop steps even though
no zone boundary is crossed, where the claim requires 0. -/
theorem claim_C2_counterexample :
    nodeP1.zone = nodeP2.zone ∧ ¬ nodeP1 = nodeP2 ∧
    ((create_solution chainB netA).toOption.map solution_hop_count) = some 2 ∧
    ¬ ((create_solution chainB netA).toOption.map solution_hop_count) = some 0 := by
  decide

/-- Claim C3 (code bug): with a network in which X is a source and Y is
a destination but X has no self-loop, `find_route(X, Y)` does not
return None - it raises the IndexError escaping from
`Zone.local_connection`, whose `len(conns) >= 0` bounds check is always
true so `conns[0]` is taken on an empty list. -/
theorem claim_C3 :
    zoneX.is_a_source [connXY] = true ∧
    zoneY.is_a_destination [connXY] = true ∧
    zoneX.local_connection [connXY] = .error ("IndexError: list index out of range") ∧
    find_route zoneX zoneY [connXY] = .error ("IndexError: list index out of range") := by
  decide

/-- Claim C5, counterexample.  `_log_work_done` does not clamp: for a
request with service time 10, latency 100, wait start 0 in a queue last
sampled at clock 5, logging at clock 6 credits 10 - 5 - 104 = -99, a
negative contribution to `work_done`. -/
theorem claim_C5_counterexample :
    (queue5.log_work_done wr5 6).work_done - queue5.work_done = -99 ∧
    (queue5.log_work_done wr5 6).work_done < queue5.work_done := by
  decide

/-- Claim C5 as amended: the work credited toward the window is the
service time, minus (last_metric_clock - wait_start) if the request
started before the window, minus (wait_end - clock) if it is not yet
finished - with no clamping, so the contribution may be negative. -/
theorem claim_C5 (q : MultiQueue) (wr : WaitingRequest) (clock s e : Int)
    (hs : wr.service_time = some s) (he : wr.wait_end = some e) :
    (q.log_work_done wr clock).work_done =
      q.work_done + (s
        - (if wr.wait_start < q.last_metric_clock then
            q.last_metric_clock - wr.wait_start else 0)
        - (if clock < e then e - clock else 0)) := by
  simp only [MultiQueue.log_work_done, hs, he]
  split_ifs <;> omega

/-- Witness for claim C5 at the concrete counterexample input. -/
theorem claim_C5_witness :
    (queue5.log_work_done wr5 6).work_done =
      queue5.work_done + (10
        - (if wr5.wait_start < queue5.last_metric_clock then
            queue5.last_metric_clock - wr5.wait_start else 0)
        - (if (6 : Int) < 110 then 110 - 6 else 0)) :=
  claim_C5 queue5 wr5 6 10 110 (by decide) (by decide)

/-- Claim C7 (confirmed): when both an earliest workflow firing and an
earliest queue completion are pending, `_do_the_next_task` runs the one
with the smaller clock, and on a tie (`queue_time <= workflow_time`) the
queue completion wins. -/
theorem claim_C7 (w q : Int) :
    do_the_next_task_choice (some w) (some q) =
      if q ≤ w then NextTask.queueTask q else NextTask.workflowTask w := by
  simp only [do_the_next_task_choice]
  by_cases h : w < q
  · rw [if_pos h, if_neg (by omega)]
  · rw [if_neg h, if_pos (by omega)]

/-- Logging work for one request changes only `work_done`. -/
theorem log_work_done_frame (q : MultiQueue) (wr : WaitingRequest) (clock : Int) :
    (q.log_work_done wr clock).last_metric_clock = q.last_metric_clock ∧
    (q.log_work_done wr clock).channels = q.channels := by
  unfold MultiQueue.log_work_done
  rcases wr.service_time with _ | s <;> rcases wr.wait_end with _ | e <;> simp

/-- Folded work logging changes only `work_done`. -/
theorem foldl_log_frame (l : List WaitingRequest) (q : MultiQueue) (clock : Int) :
    (l.foldl (fun acc wr => acc.log_work_done wr clock) q).last_metric_clock =
      q.last_metric_clock ∧
    (l.foldl (fun acc wr => acc.log_work_done wr clock) q).channels = q.channels := by
  induction l generalizing q with
  | nil => exact ⟨rfl, rfl⟩
  | cons wr rest ih =>
    simp only [List.foldl_cons]
    obtain ⟨h1, h2⟩ := ih (q.log_work_done wr clock)
    obtain ⟨g1, g2⟩ := log_work_done_frame q wr clock
    exact ⟨h1.trans g1, h2.trans g2⟩

/-- Claim C9 (confirmed): sampling a queue's performance metric at a
clock equal to `last_metric_clock` (for example sampling twice at the
same simulation time, or at clock 0 right after construction) divides by
the zero-length window and raises ZeroDivisionError; whenever the call
succeeds the clock differed from `last_metric_clock`. -/
theorem claim_C9 (q : MultiQueue) (clock : Int) :
    (clock = q.last_metric_clock →
      q.get_performance_metric clock =
        .error ("ZeroDivisionError: float division by zero")) ∧
    (∀ qm q1, q.get_performance_metric clock = .ok (qm, q1) →
      clock ≠ q.last_metric_clock) := by
  have hkey : clock = q.last_metric_clock →
      q.get_performance_metric clock =
        .error ("ZeroDivisionError: float division by zero") := by
    intro heq
    dsimp only [MultiQueue.get_performance_metric]
    have hl := (foldl_log_frame q.all_waiting_requests q clock).1
    have hcalc : ((q.all_waiting_requests).foldl
        (fun acc wr => acc.log_work_done wr clock) q).calc_utilization clock =
        .error ("ZeroDivisionError: float division by zero") := by
      dsimp only [MultiQueue.calc_utilization]
      rw [hl, ← heq]
      simp
    rw [hcalc]
  refine ⟨hkey, ?_⟩
  intro qm q1 hok heq
  rw [hkey heq] at hok
  simp at hok

/-- Witness for claim C9: the freshly constructed queue `queueW` has
`last_metric_clock = 0`, and sampling it at clock 0 raises. -/
theorem claim_C9_witness :
    queueW.get_performance_metric 0 =
      .error ("ZeroDivisionError: float division by zero") :=
  (claim_C9 queueW 0).1 (by decide)

/-- Claim C10 (confirmed): `ServiceProvider.validate` calls
`handler_node`, so validating a ROUND_ROBIN provider with nodes advances
its rotating primary by one (mod N); for every other balancing model,
and for an empty node list, the provider is left unchanged. -/
theorem claim_C10 (sp : ServiceProvider)
    (h : sp.nodes = [] ∨ sp.primary < sp.nodes.length) :
    ∃ msgs sp1, sp.validate = Except.ok (msgs, sp1) ∧
      sp1 = (if sp.service.balancing_model = BalancingModel.ROUND_ROBIN ∧ sp.nodes ≠ []
        then { sp with primary := (sp.primary + 1) % sp.nodes.length }
        else sp) := by
  rcases h with hnil | hlt
  · refine ⟨[{ message := "Service Provider must have at least one node", source := sp.name },
             { message := "Service Provider handler node is None", source := sp.name }],
            sp, ?_, ?_⟩
    · simp [ServiceProvider.validate, ServiceProvider.handler_node, hnil, bind, Except.bind,
        pure, Except.pure]
    · rw [if_neg]
      simp [hnil]
  · have h0 : ¬ sp.nodes.length = 0 := by omega
    have hne : sp.nodes ≠ [] := by
      intro hc
      rw [hc] at hlt
      simp at hlt
    have hget : sp.nodes[sp.primary]? = some (sp.nodes.get ⟨sp.primary, hlt⟩) := by
      rw [List.getElem?_eq_getElem hlt]
      simp [List.get_eq_getElem]
    by_cases hrr : sp.service.balancing_model = BalancingModel.ROUND_ROBIN
    · refine ⟨[], { sp with primary := (sp.primary + 1) % sp.nodes.length }, ?_, ?_⟩
      · simp [ServiceProvider.validate, ServiceProvider.handler_node, h0, hget, hrr,
          ServiceProvider.rotate_primary, bind, Except.bind, pure, Except.pure]
      · rw [if_pos ⟨hrr, hne⟩]
    · refine ⟨[], sp, ?_, ?_⟩
      · simp [ServiceProvider.validate, ServiceProvider.handler_node, h0, hget, hrr,
          bind, Except.bind, pure, Except.pure]
      · rw [if_neg]
        intro hc
        exact hrr hc.1

/-- Witness for claim C10 at the concrete three-node ROUND_ROBIN
provider. -/
theorem claim_C10_witness :
    ∃ msgs sp1, spRR3.validate = Except.ok (msgs, sp1) ∧
      sp1 = (if spRR3.service.balancing_model = BalancingModel.ROUND_ROBIN ∧ spRR3.nodes ≠ []
        then { spRR3 with primary := (spRR3.primary + 1) % spRR3.nodes.length }
        else spRR3) :=
  claim_C10 spRR3 (Or.inr (by decide))

/-- Inserting behind at least one element consults the comparator, which
raises. -/
theorem insert_cmp_error (x y : MultiQueue) (ys : List MultiQueue) :
    insert_cmp _sort_queues x (y :: ys) =
      .error ("AttributeError: MultiQueue object has no attribute type") := by
  simp [insert_cmp, _sort_queues, MultiQueue.type, bind, Except.bind]

/-- One unfolding step of `sorted_cmp`. -/
theorem sorted_cmp_cons (cmp : MultiQueue → MultiQueue → Except String Int)
    (x : MultiQueue) (xs : List MultiQueue) :
    sorted_cmp cmp (x :: xs) = (sorted_cmp cmp xs).bind (insert_cmp cmp x) := rfl

/-- Inserting into an empty list makes no comparison. -/
theorem insert_cmp_nil (cmp : MultiQueue → MultiQueue → Except String Int)
    (x : MultiQueue) : insert_cmp cmp x [] = .ok [x] := rfl

/-- Sorting two or more queues with `_sort_queues` raises the
AttributeError of the missing `MultiQueue.type`. -/
theorem sorted_cmp_error (l : List MultiQueue) (h : 2 ≤ l.length) :
    sorted_cmp _sort_queues l =
      .error ("AttributeError: MultiQueue object has no attribute type") := by
  induction l with
  | nil => simp at h
  | cons x xs ih =>
    rcases xs with _ | ⟨y, ys⟩
    · simp at h
    rcases ys with _ | ⟨z, zs⟩
    · rw [sorted_cmp_cons, sorted_cmp_cons]
      show (((sorted_cmp _sort_queues []).bind (insert_cmp _sort_queues y)).bind
        (insert_cmp _sort_queues x)) = _
      rw [show sorted_cmp _sort_queues [] = .ok [] from rfl]
      simp only [Except.bind, insert_cmp_nil]
      exact insert_cmp_error x y []
    · have h2 : 2 ≤ (y :: z :: zs).length := by simp
      rw [sorted_cmp_cons, ih h2]
      rfl

/-- Claim C6 (code bug): every call of `gather_queue_metrics` on a
simulator owning at least one queue raises AttributeError, because the
sort comparator and the per-queue body call the undefined
`MultiQueue.type()` (and the roll-up would additionally need the
undefined `QueueMetric.work` and `ComputeNode.is_physical_host_for`);
the claimed one-metric-per-queue sampling with virtual-to-physical work
roll-up never completes. -/
theorem claim_C6 (sim : Simulator) (h : sim.queues ≠ []) :
    ∃ e, sim.gather_queue_metrics = Except.error e := by
  rcases hq : sim.queues with _ | ⟨q, rest⟩
  · exact absurd hq h
  rcases rest with _ | ⟨q2, rest2⟩
  · unfold Simulator.gather_queue_metrics
    rw [hq]
    have hs : sorted_cmp _sort_queues [q] = .ok [q] := by
      simp [sorted_cmp, insert_cmp, bind, Except.bind, pure, Except.pure]
    rw [hs]
    rcases hp : q.get_performance_metric sim.clock with e | ⟨qm, q1⟩
    · exact ⟨e, by simp [bind, Except.bind, List.foldlM, hp]⟩
    · exact ⟨"AttributeError: MultiQueue object has no attribute type",
        by simp [bind, Except.bind, List.foldlM, hp, MultiQueue.type]⟩
  · have hs := sorted_cmp_error (q :: q2 :: rest2) (by simp)
    refine ⟨"AttributeError: MultiQueue object has no attribute type", ?_⟩
    unfold Simulator.gather_queue_metrics
    rw [hq, hs]
    simp [bind, Except.bind]

/-- Witness for claim C6: the one-queue simulator `simW`. -/
theorem claim_C6_witness :
    ∃ e, simW.gather_queue_metrics = Except.error e :=
  claim_C6 simW (by decide)

/-- One `handler_node` call on a ROUND_ROBIN provider with a valid
primary index: it returns the node at the primary and rotates. -/
theorem handler_node_rr (sp : ServiceProvider)
    (hrr : sp.service.balancing_model = BalancingModel.ROUND_ROBIN)
    (hp : sp.primary < sp.nodes.length) :
    sp.handler_node = .ok (sp.nodes[sp.primary]?,
      { sp with primary := (sp.primary + 1) % sp.nodes.length }) := by
  have h0 : ¬ sp.nodes.length = 0 := by omega
  have hget : sp.nodes[sp.primary]? = some sp.nodes[sp.primary] :=
    List.getElem?_eq_getElem hp
  simp [ServiceProvider.handler_node, h0, hget, hrr, ServiceProvider.rotate_primary]

/-- Iterated rotation: the i-th of m consecutive `handler_node` calls on
a ROUND_ROBIN provider returns the node at index (primary + i) mod N,
and the final primary is (primary + m) mod N. -/
theorem call_n_rr (m : Nat) : ∀ (sp : ServiceProvider),
    sp.service.balancing_model = BalancingModel.ROUND_ROBIN →
    sp.primary < sp.nodes.length →
    ServiceProvider.call_n m sp = .ok
      ((List.range m).map (fun i => sp.nodes[(sp.primary + i) % sp.nodes.length]?),
       { sp with primary := (sp.primary + m) % sp.nodes.length }) := by
  induction m with
  | zero =>
    intro sp hrr hp
    simp [ServiceProvider.call_n, Nat.mod_eq_of_lt hp]
  | succ m ih =>
    intro sp hrr hp
    have hlen : 0 < sp.nodes.length := by omega
    have hp1 : (sp.primary + 1) % sp.nodes.length < sp.nodes.length := Nat.mod_lt _ hlen
    have hih : ServiceProvider.call_n m { sp with primary := (sp.primary + 1) % sp.nodes.length } =
        Except.ok ((List.range m).map
            (fun i => sp.nodes[((sp.primary + 1) % sp.nodes.length + i) % sp.nodes.length]?),
          { sp with primary := ((sp.primary + 1) % sp.nodes.length + m) % sp.nodes.length }) :=
      ih { sp with primary := (sp.primary + 1) % sp.nodes.length } hrr hp1
    rw [ServiceProvider.call_n, handler_node_rr sp hrr hp]
    simp only [bind, Except.bind, hih, pure, Except.pure]
    have hmap : (List.range (m + 1)).map
        (fun i => sp.nodes[(sp.primary + i) % sp.nodes.length]?) =
        sp.nodes[sp.primary]? :: (List.range m).map
          (fun i => sp.nodes[((sp.primary + 1) % sp.nodes.length + i) % sp.nodes.length]?) := by
      rw [List.range_succ_eq_map, List.map_cons, List.map_map]
      congr 1
      · show sp.nodes[(sp.primary + 0) % sp.nodes.length]? = sp.nodes[sp.primary]?
        rw [Nat.add_zero, Nat.mod_eq_of_lt hp]
      · have hfun : ((fun i => sp.nodes[(sp.primary + i) % sp.nodes.length]?) ∘ Nat.succ) =
            (fun i => sp.nodes[((sp.primary + 1) % sp.nodes.length + i) % sp.nodes.length]?) := by
          funext i
          simp only [Function.comp]
          congr 1
          rw [Nat.mod_add_mod]
          congr 1
          omega
        rw [hfun]
    have hprim : ((sp.primary + 1) % sp.nodes.length + m) % sp.nodes.length =
        (sp.primary + (m + 1)) % sp.nodes.length := by
      rw [Nat.mod_add_mod]
      congr 1
      omega
    rw [hmap, hprim]

/-- Exactly one index below N hits a given residue class of the rotating
primary. -/
theorem countP_mod_range (len j p : Nat) (hlen : 0 < len) (hj : j < len) :
    (List.range len).countP (fun i => decide ((p + i) % len = j)) = 1 := by
  set i0 := (j + (len - p % len)) % len with hi0def
  have hi0lt : i0 < len := Nat.mod_lt _ hlen
  have key : (p + i0) % len = j := by
    have e1 : (p + i0) ≡ (p % len) + i0 [MOD len] :=
      Nat.ModEq.add_right i0 (Nat.mod_modEq p len).symm
    have e2 : (p % len) + i0 ≡ (p % len) + (j + (len - p % len)) [MOD len] :=
      Nat.ModEq.add_left _ (Nat.mod_modEq _ len)
    have hple : p % len < len := Nat.mod_lt _ hlen
    have e3 : (p % len) + (j + (len - p % len)) = j + len := by omega
    have e4 : (p + i0) ≡ j + len [MOD len] := (e1.trans e2).trans (by rw [e3])
    have e5 : (p + i0) % len = (j + len) % len := e4
    rw [e5, Nat.add_mod_right, Nat.mod_eq_of_lt hj]
  have uniq : ∀ i, i < len → (((p + i) % len = j) ↔ i = i0) := by
    intro i hi
    constructor
    · intro hpi
      have hmeq : (p + i) ≡ (p + i0) [MOD len] := by
        show (p + i) % len = (p + i0) % len
        rw [hpi, key]
      have h2 : i % len = i0 % len := Nat.ModEq.add_left_cancel' p hmeq
      rwa [Nat.mod_eq_of_lt hi, Nat.mod_eq_of_lt hi0lt] at h2
    · rintro rfl
      exact key
  have hc : (List.range len).countP (fun i => decide ((p + i) % len = j)) =
      (List.range len).countP (fun i => i == i0) := by
    apply List.countP_congr
    intro i hi
    have hi' : i < len := List.mem_range.mp hi
    simp [uniq i hi']
  rw [hc, ← List.count_eq_countP]
  exact List.count_eq_one_of_mem (List.nodup_range len) (List.mem_range.mpr hi0lt)

/-- Over k*N consecutive indices every residue class below N is hit
exactly k times. -/
theorem countP_mod_range_mul (len j p : Nat) (hlen : 0 < len) (hj : j < len) (k : Nat) :
    (List.range (k * len)).countP (fun i => decide ((p + i) % len = j)) = k := by
  induction k with
  | zero => simp
  | succ k ih =>
    have hadd : (k + 1) * len = k * len + len := by ring
    rw [hadd, List.range_add, List.countP_append, ih, List.countP_map]
    have hfun : ((fun i => decide ((p + i) % len = j)) ∘ (fun x => k * len + x)) =
        (fun i => decide ((p + i) % len = j)) := by
      funext i
      simp only [Function.comp]
      congr 1
      have h1 : p + (k * len + i) = (p + i) + k * len := by ring
      rw [h1, Nat.add_mul_mod_self_right]
    rw [hfun, countP_mod_range len j p hlen hj]

/-- Claim C8 (confirmed): on a ROUND_ROBIN provider with N distinct
nodes and a valid primary, k*N consecutive `handler_node` calls return
the nodes cycling in list order from the current primary (each call
advancing the primary by one mod N), and every node is returned exactly
k times. -/
theorem claim_C8 (sp : ServiceProvider) (k : Nat)
    (hrr : sp.service.balancing_model = BalancingModel.ROUND_ROBIN)
    (hp : sp.primary < sp.nodes.length)
    (hnd : sp.nodes.Nodup) :
    ServiceProvider.call_n (k * sp.nodes.length) sp = .ok
      ((List.range (k * sp.nodes.length)).map
        (fun i => sp.nodes[(sp.primary + i) % sp.nodes.length]?),
       { sp with primary := (sp.primary + k * sp.nodes.length) % sp.nodes.length }) ∧
    ∀ j, j < sp.nodes.length →
      ((List.range (k * sp.nodes.length)).map
        (fun i => sp.nodes[(sp.primary + i) % sp.nodes.length]?)).count
        sp.nodes[j]? = k := by
  have hlen : 0 < sp.nodes.length := by omega
  refine ⟨call_n_rr _ sp hrr hp, ?_⟩
  intro j hj
  rw [List.count_eq_countP, List.countP_map]
  have hcong : (List.range (k * sp.nodes.length)).countP
      ((fun x => x == sp.nodes[j]?) ∘
        (fun i => sp.nodes[(sp.primary + i) % sp.nodes.length]?)) =
      (List.range (k * sp.nodes.length)).countP
        (fun i => decide ((sp.primary + i) % sp.nodes.length = j)) := by
    apply List.countP_congr
    intro i _
    simp only [Function.comp, beq_iff_eq, decide_eq_true_eq]
    have hx : (sp.primary + i) % sp.nodes.length < sp.nodes.length := Nat.mod_lt _ hlen
    constructor
    · intro hsome
      exact List.getElem?_inj hx hnd hsome
    · intro hxy
      rw [hxy]
  rw [hcong, countP_mod_range_mul sp.nodes.length j sp.primary hlen hj k]

/-- Witness for claim C8: two full cycles over the three-node
ROUND_ROBIN provider. -/
theorem claim_C8_witness :
    ServiceProvider.call_n (2 * spRR3.nodes.length) spRR3 = .ok
      ((List.range (2 * spRR3.nodes.length)).map
        (fun i => spRR3.nodes[(spRR3.primary + i) % spRR3.nodes.length]?),
       { spRR3 with primary := (spRR3.primary + 2 * spRR3.nodes.length) % spRR3.nodes.length }) ∧
    ∀ j, j < spRR3.nodes.length →
      ((List.range (2 * spRR3.nodes.length)).map
        (fun i => spRR3.nodes[(spRR3.primary + i) % spRR3.nodes.length]?)).count
        spRR3.nodes[j]? = 2 :=
  claim_C8 spRR3 2 (by decide) (by decide) (by decide)

/-- A found route is never the empty connection list (`find_route`
returns None instead of an empty path). -/
theorem find_route_some_ne_nil (start finish : Zone) (net : List Connection) (r : Route)
    (h : find_route start finish net = .ok (some r)) : r.connections ≠ [] := by
  unfold find_route at h
  by_cases hg : (!(start.is_a_source net) || !(finish.is_a_destination net)) = true
  · rw [if_pos hg] at h
    simp at h
  · rw [if_neg hg] at h
    rcases hl : start.local_connection net with e | lc
    · simp [hl] at h
    · simp only [hl] at h
      rcases lc with _ | l
      · simp at h
      · rw [if_neg (Option.some_ne_none l)] at h
        dsimp only at h
        by_cases hlen : (find_route_dfs (net.length + 1) start finish net [start] [l]).length = 0
        · rw [if_pos hlen] at h
          simp at h
        · rw [if_neg hlen] at h
          have h2 := Option.some.inj (Except.ok.inj h)
          intro hc
          rw [← h2] at hc
          have hpath : find_route_dfs (net.length + 1) start finish net [start] [l] = [] := hc
          rw [hpath] at hlen
          simp at hlen

/-- Claim C2 as amended: in each planner iteration (forward and retrace
alike), network hop steps are inserted before the compute step exactly
when the newly resolved handler node differs from the node the request
currently sits on - node inequality, not zone inequality; when they
differ, one hop is appended per connection of the (never empty) route
between their zones, which for two distinct nodes in the same zone is
the zone's self-loop alone. -/
theorem claim_C2 (chain : WorkflowChain) (net : List Connection) (is_resp : Bool)
    (st : SolveState) (i : Nat) (out : SolveState)
    (h : solution_visit chain net is_resp st i = .ok out) :
    ∃ (step : WorkflowDefStep) (dest_node : ComputeNode)
      (hops : List ClientRequestSolutionStep),
      chain.steps.get? i = some step ∧
      out.source_node = dest_node ∧
      out.steps = st.steps ++ hops ++
        [{ st_calculator := ServiceTimeCalculator.node dest_node,
           is_response := is_resp,
           data_size := if is_resp then step.response_size_kb else step.request_size_kb,
           chatter := 0, service_time := step.service_time }] ∧
      (hops = [] ↔ st.source_node = dest_node) ∧
      (st.source_node ≠ dest_node →
        ∃ r, find_route st.source_node.zone dest_node.zone net = .ok (some r) ∧
          r.connections ≠ [] ∧
          hops = r.connections.map (fun conn =>
            { st_calculator := ServiceTimeCalculator.conn conn,
              is_response := is_resp,
              data_size := if is_resp then step.response_size_kb else step.request_size_kb,
              chatter := step.chatter, service_time := 0 })) := by
  unfold solution_visit at h
  simp only [bind, Except.bind, pure, Except.pure] at h
  split at h
  · simp at h
  rename_i step hstep
  split at h
  · simp at h
  rename_i dest_sp hlookup
  split at h
  · simp at h
  rename_i v hhandler
  obtain ⟨dn, dsp1⟩ := v
  dsimp only at h
  rcases dn with _ | dest_node
  · simp at h
  dsimp only at h
  split at h
  · rename_i hne
    split at h
    · simp at h
    · simp at h
    rename_i route hroute
    have hout := Except.ok.inj h
    refine ⟨step, dest_node,
      route.connections.map (fun conn =>
        { st_calculator := ServiceTimeCalculator.conn conn,
          is_response := is_resp,
          data_size := if is_resp then step.response_size_kb else step.request_size_kb,
          chatter := step.chatter, service_time := 0 }),
      hstep, ?_, ?_, ?_, ?_⟩
    · rw [← hout]
    · rw [← hout]
    · constructor
      · intro hmapnil
        have hcnil : route.connections = [] := by
          rcases hconn : route.connections with _ | ⟨c, cs⟩
          · rfl
          · rw [hconn] at hmapnil
            simp at hmapnil
        exact absurd hcnil (find_route_some_ne_nil _ _ _ _ hroute)
      · intro heq
        exact absurd heq hne
    · intro _
      exact ⟨route, hroute, find_route_some_ne_nil _ _ _ _ hroute, rfl⟩
  · rename_i hnne
    have heq : st.source_node = dest_node := not_not.mp hnne
    have hout := Except.ok.inj h
    refine ⟨step, dest_node, [], hstep, ?_, ?_, ?_, ?_⟩
    · rw [← hout]
    · rw [← hout]
    · simp [heq]
    · intro hc
      exact absurd heq hc

/-- Witness for claim C2: the iteration that moves the request from P1
to the same-zone node P2, inserting the single self-loop hop. -/
theorem claim_C2_witness :
    ∃ (step : WorkflowDefStep) (dest_node : ComputeNode)
      (hops : List ClientRequestSolutionStep),
      chainB.steps.get? 1 = some step ∧
      outB1.source_node = dest_node ∧
      outB1.steps = stB0.steps ++ hops ++
        [{ st_calculator := ServiceTimeCalculator.node dest_node,
           is_response := false,
           data_size := if false then step.response_size_kb else step.request_size_kb,
           chatter := 0, service_time := step.service_time }] ∧
      (hops = [] ↔ stB0.source_node = dest_node) ∧
      (stB0.source_node ≠ dest_node →
        ∃ r, find_route stB0.source_node.zone dest_node.zone netA = .ok (some r) ∧
          r.connections ≠ [] ∧
          hops = r.connections.map (fun conn =>
            { st_calculator := ServiceTimeCalculator.conn conn,
              is_response := false,
              data_size := if false then step.response_size_kb else step.request_size_kb,
              chatter := step.chatter, service_time := 0 })) :=
  claim_C2 chainB netA false stB0 1 outB1 (by decide)

/-- The folded minimum-by-length selection either keeps the accumulator
or picks a list element, and its result is no longer than either. -/
theorem foldl_min_choice (xs : List (List Connection)) :
    ∀ acc : List Connection,
      (xs.foldl (fun best p => if p.length < best.length then p else best) acc = acc ∨
       xs.foldl (fun best p => if p.length < best.length then p else best) acc ∈ xs) ∧
      (xs.foldl (fun best p => if p.length < best.length then p else best) acc).length ≤
        acc.length ∧
      (∀ p ∈ xs, (xs.foldl (fun best p => if p.length < best.length then p else best)
        acc).length ≤ p.length) := by
  induction xs with
  | nil =>
    intro acc
    exact ⟨Or.inl rfl, le_refl _, by simp⟩
  | cons x xs ih =>
    intro acc
    simp only [List.foldl_cons]
    obtain ⟨hc, hle, hall⟩ := ih (if x.length < acc.length then x else acc)
    refine ⟨?_, ?_, ?_⟩
    · rcases hc with hc | hc
      · rw [hc]
        by_cases hx : x.length < acc.length
        · rw [if_pos hx]
          exact Or.inr (List.mem_cons_self _ _)
        · rw [if_neg hx]
          exact Or.inl rfl
      · exact Or.inr (List.mem_cons_of_mem _ hc)
    · refine le_trans hle ?_
      by_cases hx : x.length < acc.length
      · rw [if_pos hx]
        omega
      · rw [if_neg hx]
    · intro p hp
      rcases List.mem_cons.mp hp with rfl | hp
      · refine le_trans hle ?_
        by_cases hx : p.length < acc.length
        · rw [if_pos hx]
        · rw [if_neg hx]
          omega
      · exact hall p hp

/-- The stable sort-by-length head: a member of the input of minimal
length. -/
theorem smbl_spec (l : List (List Connection)) (hne : l ≠ []) :
    stable_min_by_length l ∈ l ∧ ∀ p ∈ l, (stable_min_by_length l).length ≤ p.length := by
  rcases l with _ | ⟨x, xs⟩
  · exact absurd rfl hne
  · dsimp only [stable_min_by_length]
    obtain ⟨hc, hle, hall⟩ := foldl_min_choice xs x
    refine ⟨?_, ?_⟩
    · rcases hc with hc | hc
      · rw [hc]
        exact List.mem_cons_self _ _
      · exact List.mem_cons_of_mem _ hc
    · intro p hp
      rcases List.mem_cons.mp hp with rfl | hp
      · exact hle
      · exact hall p hp

/-- Membership form of `List.contains` on zones. -/
theorem contains_eq_mem (v : List Zone) (z : Zone) : v.contains z = true ↔ z ∈ v := by
  simp

/-- Counting a weaker predicate that newly fails at a member is strictly
smaller. -/
theorem countP_lt_of_flip (p q : Connection → Bool) :
    ∀ l : List Connection, (∀ x ∈ l, p x = true → q x = true) →
    ∀ e, e ∈ l → p e = false → q e = true → l.countP p < l.countP q := by
  intro l
  induction l with
  | nil =>
    intro _ e he
    simp at he
  | cons x xs ih =>
    intro hmono e he hpe hqe
    rw [List.countP_cons, List.countP_cons]
    have hmono' : ∀ y ∈ xs, p y = true → q y = true := fun y hy =>
      hmono y (List.mem_cons_of_mem _ hy)
    have hlexs : xs.countP p ≤ xs.countP q := by
      have := List.countP_mono_left (l := xs) (p := p) (q := q)
      exact this hmono'
    rcases List.mem_cons.mp he with rfl | he'
    · rw [hpe, hqe]
      simp only [Bool.false_eq_true, if_false, if_true]
      omega
    · have hstrict := ih hmono' e he' hpe hqe
      have hxpq : (if p x = true then 1 else 0) ≤ (if q x = true then 1 else 0) := by
        by_cases hx : p x = true
        · rw [if_pos hx, if_pos (hmono x (List.mem_cons_self _ _) hx)]
        · rw [if_neg hx]
          omega
      omega

/-- Visiting one more fresh destination strictly shrinks the set of
connections into unvisited zones. -/
theorem measure_decreases (net : List Connection) (visited : List Zone) (e : Connection)
    (he : e ∈ net) (hd : e.destination ∉ visited) :
    (net.filter (fun c => !((visited ++ [e.destination]).contains c.destination))).length <
    (net.filter (fun c => !(visited.contains c.destination))).length := by
  rw [← List.countP_eq_length_filter, ← List.countP_eq_length_filter]
  apply countP_lt_of_flip _ _ net
  · intro x _ hpx
    simp only [Bool.not_eq_true'] at hpx ⊢
    rcases hcv : visited.contains x.destination with _ | _
    · rfl
    · have hxv : x.destination ∈ visited := (contains_eq_mem _ _).mp hcv
      have : x.destination ∈ visited ++ [e.destination] := List.mem_append_left _ hxv
      rw [(contains_eq_mem _ _).mpr this] at hpx
      simp at hpx
  · exact he
  · simp only [Bool.not_eq_false']
    apply (contains_eq_mem _ _).mpr
    simp
  · simp only [Bool.not_eq_true']
    rcases hcv : visited.contains e.destination with _ | _
    · rfl
    · exact absurd ((contains_eq_mem _ _).mp hcv) hd

/-- Structural facts about a simple path: its links are non-local
network links chaining source-to-destination, entered zones are fresh
and pairwise distinct, it ends at the target, and it starts at the
current zone. -/
theorem reachesVia_props {net : List Connection} {finish : Zone} :
    ∀ {z : Zone} {visited : List Zone} {q : List Connection},
    ReachesVia net finish z visited q →
    (∀ c ∈ q, c ∈ net ∧ c.is_local = false) ∧
    List.Chain' (fun a b => a.destination = b.source) q ∧
    (q.map (fun c => c.destination)).Nodup ∧
    (∀ d ∈ q.map (fun c => c.destination), d ∉ visited) ∧
    (q = [] → z = finish) ∧
    (∀ c, q.getLast? = some c → c.destination = finish) ∧
    (∀ c, q.head? = some c → c.source = z) := by
  intro z visited q hr
  induction hr with
  | done visited =>
    refine ⟨by simp, List.chain'_nil, by simp, by simp, fun _ => rfl, by simp, by simp⟩
  | @step z' visited' rest c hmem hlocal hsource hfresh hrest ih =>
    obtain ⟨ih1, ih2, ih3, ih4, ih5, ih6, ih7⟩ := ih
    refine ⟨?_, ?_, ?_, ?_, ?_, ?_, ?_⟩
    · intro c' hc'
      rcases List.mem_cons.mp hc' with rfl | hc'
      · exact ⟨hmem, hlocal⟩
      · exact ih1 c' hc'
    · rw [List.chain'_cons']
      refine ⟨?_, ih2⟩
      intro y hy
      exact (ih7 y (Option.mem_def.mp hy)).symm
    · simp only [List.map_cons, List.nodup_cons]
      refine ⟨?_, ih3⟩
      intro hmem'
      exact (ih4 c.destination hmem') (by simp)
    · intro d hd
      simp only [List.map_cons, List.mem_cons] at hd
      rcases hd with rfl | hd'
      · exact hfresh
      · intro hdv
        exact (ih4 d hd') (List.mem_append_left _ hdv)
    · intro hq
      exact absurd hq (by simp)
    · intro c' hlast
      rcases hre : rest with _ | ⟨r0, rs⟩
      · rw [hre] at hlast
        have hcc : c = c' := by simpa using hlast
        rw [← hcc]
        exact ih5 hre
      · rw [hre] at hlast
        rw [List.getLast?_cons_cons] at hlast
        rw [← hre] at hlast
        exact ih6 c' hlast
    · intro c' hhead
      have hcc : c = c' := by simpa using hhead
      rw [← hcc]
      exact hsource

/-- A nonempty simple path can only exist when the target zone has not
been visited yet. -/
theorem reachesVia_finish_not_visited {net : List Connection} {finish : Zone} :
    ∀ {z : Zone} {visited : List Zone} {q : List Connection},
    ReachesVia net finish z visited q → q ≠ [] → finish ∉ visited := by
  intro z visited q hr
  induction hr with
  | done visited =>
    intro hq
    exact absurd rfl hq
  | @step z' visited' rest c hmem hlocal hsource hfresh hrest ih =>
    intro _
    rcases hre : rest with _ | ⟨r0, rs⟩
    · have hzf : c.destination = finish := by
        have hprops := reachesVia_props hrest
        exact hprops.2.2.2.2.1 hre
      rw [← hzf]
      exact hfresh
    · have hfin : finish ∉ visited' ++ [c.destination] := by
        apply ih
        rw [hre]
        simp
      intro hv
      exact hfin (List.mem_append_left _ hv)

/-- Soundness, completeness and minimality of the DFS route search: with
sufficient fuel, a nonempty result extends the working path by a simple
path to the target, and whenever some simple path exists the search
succeeds with a result no longer than the working path plus that path. -/
theorem find_route_dfs_spec (net : List Connection) (finish : Zone) :
    ∀ (fuel : Nat) (start : Zone) (visited : List Zone) (path : List Connection),
    (net.filter (fun c => !(visited.contains c.destination))).length < fuel →
    path ≠ [] →
    ((find_route_dfs fuel start finish net visited path ≠ [] →
      ∃ suffix, find_route_dfs fuel start finish net visited path = path ++ suffix ∧
        ReachesVia net finish start visited suffix) ∧
     (∀ q, ReachesVia net finish start visited q →
      find_route_dfs fuel start finish net visited path ≠ [] ∧
      (find_route_dfs fuel start finish net visited path).length ≤ path.length + q.length)) := by
  intro fuel
  induction fuel with
  | zero =>
    intro start visited path hfuel _
    omega
  | succ fuel ih =>
    intro start visited path hfuel hpath
    by_cases hsf : start = finish
    · have hdfs : find_route_dfs (fuel + 1) start finish net visited path = path := by
        rw [find_route_dfs, if_pos hsf]
      rw [hdfs]
      constructor
      · intro _
        refine ⟨[], by simp, ?_⟩
        rw [hsf]
        exact ReachesVia.done visited
      · intro q _
        exact ⟨hpath, Nat.le_add_right _ _⟩
    · rw [find_route_dfs, if_neg hsf]
      dsimp only
      set etu := List.filter (fun conn => !(visited.contains conn.destination))
        (start.exit_connections net) with hetu
      set results := List.filter
        (fun p => decide (p.length > 0) &&
          (Option.map (fun c => c.destination) p.getLast? == some finish))
        (List.map (fun ex => find_route_dfs fuel ex.destination finish net
          (visited ++ [ex.destination]) (path ++ [ex])) etu) with hresults
      constructor
      · intro hne
        have hrne : results ≠ [] := by
          intro hnil
          rw [hnil] at hne
          exact hne rfl
        have hmem := (smbl_spec _ hrne).1
        obtain ⟨hmem0, _⟩ := List.mem_filter.mp hmem
        obtain ⟨ex, hex, hexeq⟩ := List.mem_map.mp hmem0
        rw [hetu] at hex
        obtain ⟨hex_exits, hex_unvis⟩ := List.mem_filter.mp hex
        obtain ⟨hex_net, hex_cond⟩ := List.mem_filter.mp hex_exits
        simp only [Bool.and_eq_true, beq_iff_eq] at hex_cond
        have hlocal : ex.is_local = false := hex_cond.1
        have hsource : ex.source = start := hex_cond.2.symm
        have hfresh : ex.destination ∉ visited := by
          simp only [Bool.not_eq_true'] at hex_unvis
          intro hv
          rw [(contains_eq_mem _ _).mpr hv] at hex_unvis
          simp at hex_unvis
        have hfuel' : (net.filter
            (fun c => !((visited ++ [ex.destination]).contains c.destination))).length <
            fuel := by
          have := measure_decreases net visited ex hex_net hfresh
          omega
        have ihs := (ih ex.destination (visited ++ [ex.destination]) (path ++ [ex])
          hfuel' (by simp)).1
        rw [hexeq] at ihs
        obtain ⟨suffix, heq, hreach⟩ := ihs hne
        refine ⟨ex :: suffix, ?_, ?_⟩
        · rw [heq]
          simp
        · exact ReachesVia.step ex hex_net hlocal hsource hfresh hreach
      · intro q hq
        cases hq with
        | done _ => exact absurd rfl hsf
        | @step _ _ rest c hmem hlocal hsource hfresh hrest =>
          have hc_etu : c ∈ etu := by
            rw [hetu]
            apply List.mem_filter.mpr
            refine ⟨?_, ?_⟩
            · apply List.mem_filter.mpr
              refine ⟨hmem, ?_⟩
              simp only [Bool.and_eq_true, beq_iff_eq]
              exact ⟨by rw [hlocal], hsource.symm⟩
            · simp only [Bool.not_eq_true']
              rcases hcv : visited.contains c.destination with _ | _
              · rfl
              · exact absurd ((contains_eq_mem _ _).mp hcv) hfresh
          have hfuel' : (net.filter
              (fun c' => !((visited ++ [c.destination]).contains c'.destination))).length <
              fuel := by
            have := measure_decreases net visited c hmem hfresh
            omega
          have ihc := ih c.destination (visited ++ [c.destination]) (path ++ [c])
            hfuel' (by simp)
          obtain ⟨hpcne, hpclen⟩ := ihc.2 rest hrest
          obtain ⟨suffix, hpceq, hreach⟩ := ihc.1 hpcne
          have hlast : (find_route_dfs fuel c.destination finish net
              (visited ++ [c.destination]) (path ++ [c])).getLast?.map
              (fun c' => c'.destination) = some finish := by
            rcases hsuf : suffix with _ | ⟨s0, ss⟩
            · have hzf : c.destination = finish := by
                have hprops := reachesVia_props hreach
                exact hprops.2.2.2.2.1 hsuf
              rw [hpceq, hsuf, List.append_nil, List.getLast?_concat]
              simp [hzf]
            · have hlast' := (reachesVia_props hreach).2.2.2.2.2.1
              rw [hpceq, List.getLast?_append_of_ne_nil _ (by rw [hsuf]; simp)]
              rcases hgl : suffix.getLast? with _ | cl
              · rw [hsuf] at hgl
                simp at hgl
              · simp [hgl, hlast' cl hgl]
          have hpc_results : find_route_dfs fuel c.destination finish net
              (visited ++ [c.destination]) (path ++ [c]) ∈ results := by
            rw [hresults]
            apply List.mem_filter.mpr
            refine ⟨List.mem_map.mpr ⟨c, hc_etu, rfl⟩, ?_⟩
            simp only [Bool.and_eq_true, beq_iff_eq]
            refine ⟨by simp [List.length_pos.mpr hpcne], hlast⟩
          have hrne : results ≠ [] := by
            intro hnil
            rw [hnil] at hpc_results
            simp at hpc_results
          have hsml := smbl_spec _ hrne
          constructor
          · intro hcontra
            obtain ⟨_, hcond⟩ := List.mem_filter.mp (hresults ▸ hsml.1)
            rw [hcontra] at hcond
            simp at hcond
          · have hmin := hsml.2 _ hpc_results
            have hlen2 : (path ++ [c]).length = path.length + 1 := by simp
            simp only [List.length_cons]
            omega

/-- A successfully returned local connection is a self-loop of the zone
present in the network. -/
theorem local_connection_ok (z : Zone) (net : List Connection) (l : Connection)
    (h : z.local_connection net = .ok (some l)) :
    l ∈ net ∧ l.source = z ∧ l.destination = z := by
  unfold Zone.local_connection at h
  dsimp only at h
  rw [if_pos (Nat.zero_le _)] at h
  rcases hf : net.filter (fun conn => z == conn.source && z == conn.destination)
    with _ | ⟨c, cs⟩
  · rw [hf] at h
    simp at h
  · rw [hf] at h
    simp only [Except.ok.injEq, Option.some.injEq] at h
    have hc : c ∈ net.filter (fun conn => z == conn.source && z == conn.destination) := by
      rw [hf]
      exact List.mem_cons_self _ _
    obtain ⟨hmem, hcond⟩ := List.mem_filter.mp hc
    simp only [Bool.and_eq_true, beq_iff_eq] at hcond
    rw [← h]
    exact ⟨hmem, hcond.1.symm, hcond.2.symm⟩

/-- Claim C4 (confirmed): every route `find_route` returns begins with
the start zone's self-loop; consecutive links chain destination to
source; the last link ends at the target zone; the inter-zone tail is a
simple path (each zone entered at most once, never re-entering the start
zone) over non-local network links; the route has the fewest links among
all such simple paths (tie-breaking among equally short paths is the
deterministic first-in-enumeration-order choice of the stable sort); and
a route from a zone to itself is exactly the self-loop. -/
theorem claim_C4 (start finish : Zone) (net : List Connection) (r : Route)
    (h : find_route start finish net = .ok (some r)) : RouteSpec start finish net r := by
  unfold find_route at h
  by_cases hg : (!(start.is_a_source net) || !(finish.is_a_destination net)) = true
  · rw [if_pos hg] at h
    simp at h
  · rw [if_neg hg] at h
    rcases hl : start.local_connection net with e | lc
    · simp [hl] at h
    · simp only [hl] at h
      rcases lc with _ | l
      · simp at h
      · rw [if_neg (Option.some_ne_none l)] at h
        dsimp only at h
        by_cases hlen : (find_route_dfs (net.length + 1) start finish net [start] [l]).length = 0
        · rw [if_pos hlen] at h
          simp at h
        · rw [if_neg hlen] at h
          have h2 := Option.some.inj (Except.ok.inj h)
          have hfuel : (net.filter
              (fun c => !(([start] : List Zone).contains c.destination))).length <
              net.length + 1 := by
            have := List.length_filter_le
              (fun c => !(([start] : List Zone).contains c.destination)) net
            omega
          have hspec := find_route_dfs_spec net finish (net.length + 1) start [start] [l]
            hfuel (by simp)
          have hne : find_route_dfs (net.length + 1) start finish net [start] [l] ≠ [] := by
            intro hc
            rw [hc] at hlen
            simp at hlen
          obtain ⟨suffix, heq, hreach⟩ := hspec.1 hne
          obtain ⟨hp1, hp2, hp3, hp4, hp5, hp6, hp7⟩ := reachesVia_props hreach
          obtain ⟨hlmem, hlsrc, hldst⟩ := local_connection_ok start net l hl
          have hconn : r.connections = l :: suffix := by
            rw [← h2, heq]
            rfl
          refine ⟨l, suffix, hl, hlmem, hlsrc, hldst, hconn, ?_, ?_, hp1, hp3, ?_,
            hreach, ?_, ?_⟩
          · rw [hconn, List.chain'_cons']
            refine ⟨?_, hp2⟩
            intro y hy
            have hys := hp7 y (Option.mem_def.mp hy)
            rw [hldst, hys]
          · rcases hsuf : suffix with _ | ⟨s0, ss⟩
            · have hzf : start = finish := hp5 hsuf
              refine ⟨l, ?_, ?_⟩
              · rw [hconn, hsuf]
                rfl
              · rw [hldst, hzf]
            · rcases hgl : suffix.getLast? with _ | cl
              · rw [hsuf] at hgl
                simp at hgl
              · refine ⟨cl, ?_, hp6 cl hgl⟩
                rw [hconn, hsuf, List.getLast?_cons_cons, ← hsuf, hgl]
          · intro hmem'
            exact (hp4 start hmem') (by simp)
          · intro q hq
            have hdlen : (find_route_dfs (net.length + 1) start finish net
                [start] [l]).length = 1 + suffix.length := by
              rw [heq]
              simp
              omega
            have hqlen := (hspec.2 q hq).2
            rw [hconn]
            simp only [List.length_cons, List.length_singleton, List.length_nil] at hqlen ⊢
            omega
          · intro hsf
            by_contra hne2
            have hfin := reachesVia_finish_not_visited hreach hne2
            exact hfin (by rw [← hsf]; simp)

/-- Witness for claim C4: the Scenario C network, route A to C. -/
theorem claim_C4_witness : RouteSpec zoneA4 zoneC4 netC4 routeAC :=
  claim_C4 zoneA4 zoneC4 netC4 routeAC (by decide)
